import Mathlib

/-!
Shallow embedding of the frame-presentation core of the SH-Vulkan renderer
(`Source/MVulkanRenderer.cpp`, `Include/MVulkanRenderer.h`): the swapchain
selection policies, the swapchain recreation path, the synchronization ring
and the `DrawFrame` state machine.

Machine integers: the renderer's `TU32` is a 32-bit unsigned integer; we model
its values as `Nat` and write `% 2^32` explicitly at the one place where an
overflow could occur (the `minImageCount + 1` computation).  Vulkan enum
values are modelled by their numeric codes from the Vulkan headers.
-/

namespace SHVulkan

/-- `NumericalMax<TU32>` = `std::numeric_limits<uint32_t>::max()` (Global/Type.h). -/
def NumericalMaxTU32 : Nat := 2 ^ 32 - 1

/-- Numeric code of `VK_FORMAT_UNDEFINED`. -/
def VK_FORMAT_UNDEFINED : Nat := 0

/-- Numeric code of `VK_FORMAT_B8G8R8A8_UNORM`. -/
def VK_FORMAT_B8G8R8A8_UNORM : Nat := 44

/-- Numeric code of `VK_COLOR_SPACE_SRGB_NONLINEAR_KHR`. -/
def VK_COLOR_SPACE_SRGB_NONLINEAR_KHR : Nat := 0

/-- Numeric code of `VK_PRESENT_MODE_IMMEDIATE_KHR`. -/
def VK_PRESENT_MODE_IMMEDIATE_KHR : Nat := 0

/-- Numeric code of `VK_PRESENT_MODE_MAILBOX_KHR`. -/
def VK_PRESENT_MODE_MAILBOX_KHR : Nat := 1

/-- Numeric code of `VK_PRESENT_MODE_FIFO_KHR`. -/
def VK_PRESENT_MODE_FIFO_KHR : Nat := 2

/-- `VkSurfaceFormatKHR`: a pixel format paired with a color space. -/
structure VkSurfaceFormatKHR where
  format : Nat
  colorSpace : Nat
deriving DecidableEq, Repr

/-- `VkExtent2D`: a width/height pair of `TU32` values. -/
structure VkExtent2D where
  width : Nat
  height : Nat
deriving DecidableEq, Repr

/-- The fields of `VkSurfaceCapabilitiesKHR` that the renderer reads. -/
structure VkSurfaceCapabilitiesKHR where
  minImageCount : Nat
  maxImageCount : Nat
  currentExtent : VkExtent2D
  minImageExtent : VkExtent2D
  maxImageExtent : VkExtent2D
deriving DecidableEq, Repr

/-- `std::clamp(v, lo, hi)` as specified by the C++ standard library:
`(v < lo) ? lo : ((hi < v) ? hi : v)`.  (Calling it with `hi < lo` is
undefined behaviour in C++; the embedding is total and mirrors the usual
implementation.) -/
def stdClamp (v lo hi : Nat) : Nat :=
  if v < lo then lo else if hi < v then hi else v

/-- `MVulkanRenderer::ChoooseSwapSurfaceFormat` (sic, the source's spelling),
MVulkanRenderer.cpp lines 754-779.  If the sole available entry has the
undefined format, return `{B8G8R8A8_UNORM, SRGB_NONLINEAR}` directly;
otherwise return the first entry equal to that preferred pair, and when no
entry matches, return `front()` of the list.  (`front()` on an empty vector
is undefined behaviour in C++; theorems about the fallback assume a
non-empty list and the embedding returns a dummy pair there.) -/
def ChoooseSwapSurfaceFormat (iAvailableFormatList : List VkSurfaceFormatKHR) :
    VkSurfaceFormatKHR :=
  if iAvailableFormatList.length == 1 &&
     (iAvailableFormatList.headD ⟨0, 0⟩).format == VK_FORMAT_UNDEFINED then
    ⟨VK_FORMAT_B8G8R8A8_UNORM, VK_COLOR_SPACE_SRGB_NONLINEAR_KHR⟩
  else
    match iAvailableFormatList.find? (fun f =>
        f.format == VK_FORMAT_B8G8R8A8_UNORM &&
        f.colorSpace == VK_COLOR_SPACE_SRGB_NONLINEAR_KHR) with
    | some f => f
    | none => iAvailableFormatList.headD ⟨0, 0⟩

/-- `MVulkanRenderer::ChooseSwapPresentMode`, MVulkanRenderer.cpp lines
781-803.  The loop returns the current element as soon as it equals
`MAILBOX` or as soon as it equals `IMMEDIATE`, and falls back to
`preferredMode = FIFO` when the loop finds neither. -/
def ChooseSwapPresentMode (iAvailablePresentModeList : List Nat) : Nat :=
  match iAvailablePresentModeList.find? (fun m =>
      m == VK_PRESENT_MODE_MAILBOX_KHR || m == VK_PRESENT_MODE_IMMEDIATE_KHR) with
  | some m => m
  | none => VK_PRESENT_MODE_FIFO_KHR

/-- `MVulkanRenderer::ChooseSwapResolution`, MVulkanRenderer.cpp lines
805-830.  The framebuffer size that `glfwGetFramebufferSize` reports is
passed in as `fbWidth`/`fbHeight`. -/
def ChooseSwapResolution (iCapabiliteis : VkSurfaceCapabilitiesKHR)
    (fbWidth fbHeight : Nat) : VkExtent2D :=
  if iCapabiliteis.currentExtent.width ≠ NumericalMaxTU32 then
    iCapabiliteis.currentExtent
  else
    { width := stdClamp fbWidth
        iCapabiliteis.minImageExtent.width iCapabiliteis.maxImageExtent.width,
      height := stdClamp fbHeight
        iCapabiliteis.minImageExtent.height iCapabiliteis.maxImageExtent.height }

/-- The swapchain image count computed inside `MVulkanRenderer::CreateSwapChain`,
MVulkanRenderer.cpp lines 683-694: `imageCount = minImageCount + 1` in `TU32`
arithmetic, then `std::clamp(imageCount, minImageCount, maxImageCount)` only
when `maxImageCount > 0`. -/
def CreateSwapChainImageCount (caps : VkSurfaceCapabilitiesKHR) : Nat :=
  let imageCount := (caps.minImageCount + 1) % 2 ^ 32
  if caps.maxImageCount > 0 then
    stdClamp imageCount caps.minImageCount caps.maxImageCount
  else
    imageCount

/-- The `VkResult` values that `MVulkanRenderer::DrawFrame` distinguishes when
it inspects the result of `vkAcquireNextImageKHR`; every result other than
the three named ones is collapsed by the code into the final `else` branch
and is modelled by `otherError` with its numeric code. -/
inductive VkResult where
  | VK_SUCCESS
  | VK_ERROR_OUT_OF_DATE_KHR
  | VK_SUBOPTIMAL_KHR
  | otherError (code : Nat)
deriving DecidableEq, Repr

/-- The state of one `VkFence` of the in-flight ring, as the single-threaded
frame loop can observe it: `signaled` (the fence's signal operation has
executed), `pending` (exactly one submission is outstanding and will signal
it on completion), or `unsignaled` (unsignaled with no submission that will
ever signal it — waiting on such a fence never returns). -/
inductive FenceState where
  | signaled
  | pending
  | unsignaled
deriving DecidableEq, Repr

/-- `MVulkanRenderer::kMaxFramesInFlight = 2` (MVulkanRenderer.h line 262). -/
def kMaxFramesInFlight : Nat := 2

/-- The member fields of `MVulkanRenderer` that the frame-presentation core
reads or writes.  Opaque Vulkan handles (images, views, framebuffers,
command buffers, semaphores) are modelled as `Nat`.  The three trailing
counters are instrumentation (ghost state): they count, respectively, the
completed `RecreateSwapChain` calls, the `vkQueueSubmit` calls and the
`vkQueuePresentKHR` calls performed by `DrawFrame`. -/
structure RendererState where
  mSwapChainImages : List Nat
  mSwapChainImageViews : List Nat
  mSwapChainFrameBuffers : List Nat
  mCommandBuffers : List Nat
  mSwapChainExtent : VkExtent2D
  mSwapChainImageFormat : Nat
  mSemaphoreImageAvailable : List Nat
  mSemaphoreRenderFinished : List Nat
  mFencesInFlight : List FenceState
  mCurrentRenderFrame : Nat
  mIsWindowResizeDirty : Bool
  recreateCount : Nat := 0
  submitCount : Nat := 0
  presentCount : Nat := 0
deriving DecidableEq, Repr

/-- The environment a swapchain (re)creation consumes: the
`DVkSwapChainSupportDetails` the surface reports, the successive framebuffer
sizes `glfwGetFramebufferSize` returns inside the minimized-window poll loop,
the image handles `vkGetSwapchainImagesKHR` hands back, and the driver's
handle allocation for views, framebuffers and command buffers. -/
structure SwapChainEnv where
  mFormats : List VkSurfaceFormatKHR
  mPresentModes : List Nat
  mCapabilities : VkSurfaceCapabilitiesKHR
  fbPollSizes : List (Nat × Nat)
  newImages : List Nat
  imageViewOf : Nat → Nat
  framebufferOf : Nat → Nat
  commandBufferAt : Nat → Nat

/-- The `while (width == 0 || height == 0) { glfwGetFramebufferSize(..);
glfwWaitEvents(); }` loop opening `MVulkanRenderer::RecreateSwapChain`
(lines 2315-2320): both locals start at 0, so the loop body runs at least
once and the loop exits at the first reading whose two components are both
non-zero.  `none` models the loop never exiting (the window stays
zero-sized for every reading in the stream). -/
def pollFramebufferUntilNonZero : List (Nat × Nat) → Option (Nat × Nat)
  | [] => none
  | sz :: rest =>
    if sz.1 = 0 ∨ sz.2 = 0 then pollFramebufferUntilNonZero rest else some sz

/-- `MVulkanRenderer::CreateSwapChain` (lines 673-755) restricted to the
member fields it writes: it chooses the surface format, present mode,
resolution and image count by the policies above, creates the chain handle,
and stores the chosen extent and format into `mSwapChainExtent` and
`mSwapChainImageFormat`.  `fbW`/`fbH` is the framebuffer size
`ChooseSwapResolution` reads through `glfwGetFramebufferSize`. -/
def CreateSwapChain (env : SwapChainEnv) (fbW fbH : Nat) (s : RendererState) :
    RendererState :=
  let preferredSwapChainSurfaceFormat := ChoooseSwapSurfaceFormat env.mFormats
  let preferredSwapChainResolution := ChooseSwapResolution env.mCapabilities fbW fbH
  { s with
    mSwapChainExtent := preferredSwapChainResolution,
    mSwapChainImageFormat := preferredSwapChainSurfaceFormat.format }

/-- `MVulkanRenderer::GetSwapChainImageHandles` (lines 832-840): the list of
image handles `vkGetSwapchainImagesKHR` reports for the new chain. -/
def GetSwapChainImageHandles (env : SwapChainEnv) : List Nat :=
  env.newImages

/-- `MVulkanRenderer::CreateSwapChainImageViews` (lines 842-856):
`mSwapChainImageViews` is resized to `mSwapChainImages.size()` and entry
`i` is created from image `i` (same format and aspect for every entry, so
the view handle is a function of the image handle). -/
def CreateSwapChainImageViews (env : SwapChainEnv) (s : RendererState) :
    RendererState :=
  { s with mSwapChainImageViews := s.mSwapChainImages.map env.imageViewOf }

/-- `MVulkanRenderer::CreateFrameBuffer` (lines 1341-1372):
`mSwapChainFrameBuffers` is resized to `mSwapChainImageViews.size()` and
entry `i` wraps image view `i` (plus the shared depth view). -/
def CreateFrameBuffer (env : SwapChainEnv) (s : RendererState) :
    RendererState :=
  { s with mSwapChainFrameBuffers := s.mSwapChainImageViews.map env.framebufferOf }

/-- `MVulkanRenderer::CreateCommandBuffers` (lines 1395-1502):
`mCommandBuffers` is resized to `mSwapChainFrameBuffers.size()`, that many
buffers are allocated in one batch, and buffer `i` is recorded against
framebuffer `i`. -/
def CreateCommandBuffers (env : SwapChainEnv) (s : RendererState) :
    RendererState :=
  { s with mCommandBuffers :=
      (List.range s.mSwapChainFrameBuffers.length).map env.commandBufferAt }

/-- `MVulkanRenderer::CreateDefaultSemaphores` (lines 1504-1533): the three
ring vectors are resized to `kMaxFramesInFlight` and filled slot by slot;
every fence is created with `VK_FENCE_CREATE_SIGNALED_BIT`, i.e. already
signaled. -/
def CreateDefaultSemaphores (imageAvailHandle renderFinHandle : Nat → Nat)
    (s : RendererState) : RendererState :=
  { s with
    mSemaphoreImageAvailable := (List.range kMaxFramesInFlight).map imageAvailHandle,
    mSemaphoreRenderFinished := (List.range kMaxFramesInFlight).map renderFinHandle,
    mFencesInFlight := List.replicate kMaxFramesInFlight FenceState.signaled }

/-- `MVulkanRenderer::RecreateSwapChain` (lines 2311-2336): poll until the
framebuffer is not zero-sized (`none` when the window never leaves the
minimized state — the call then never returns); then `vkDeviceWaitIdle`,
`CleanupSwapChain` (destruction only), and the re-creation sequence
`CreateSwapChain`, `GetSwapChainImageHandles`, `CreateSwapChainImageViews`,
`CreateRenderPass`, `CreateGraphicsPipeline`, `CreateDefaultDepthResource`,
`CreateFrameBuffer`, `CreateCommandBuffers`.  The render pass, pipeline and
depth resources touch no modelled field.  Both `glfwGetFramebufferSize`
reads (loop exit and `ChooseSwapResolution`) observe the same live window
size, modelled by the reading on which the poll loop exited. -/
def RecreateSwapChain (env : SwapChainEnv) (s : RendererState) :
    Option RendererState :=
  match pollFramebufferUntilNonZero env.fbPollSizes with
  | none => none
  | some sz =>
    let s0 := { s with recreateCount := s.recreateCount + 1 }
    let s1 := CreateSwapChain env sz.1 sz.2 s0
    let s2 := { s1 with mSwapChainImages := GetSwapChainImageHandles env }
    let s3 := CreateSwapChainImageViews env s2
    let s4 := CreateFrameBuffer env s3
    let s5 := CreateCommandBuffers env s4
    some s5

/-- The per-call inputs `DrawFrame` consumes from its environment: the
result and image index of `vkAcquireNextImageKHR`, whether `vkQueueSubmit`
returns `VK_SUCCESS`, the result of `vkQueuePresentKHR` (which the code
never reads), and the environment a triggered recreation would consume. -/
structure FrameInputs where
  acquireResult : VkResult
  acquireImageIndex : Nat
  submitOk : Bool
  presentResult : VkResult
  recreateEnv : SwapChainEnv

/-- The two `std::runtime_error` throws inside `MVulkanRenderer::DrawFrame`:
`acquireFailed` is the throw with message
`Failed to acquire swap chain image.` (line 2469) and `submitFailed` the
throw with message `Failed to submit draw command buffer.` (line 2513). -/
inductive RenderError where
  | acquireFailed
  | submitFailed
deriving DecidableEq, Repr

/-- The observable outcome of one `MVulkanRenderer::DrawFrame` call:
normal completion, the early return after a staleness-triggered
recreation, one of the two ways the call can block forever, or a thrown
`std::runtime_error` (which error, and the state at the throw). -/
inductive DrawOutcome where
  | completed (s : RendererState)
  | aborted (s : RendererState)
  | blockedOnFence
  | blockedInRecreate
  | fatalError (e : RenderError) (s : RendererState)
deriving DecidableEq, Repr

/-- `MVulkanRenderer::DrawFrame` (lines 2434-2533).  Steps, in source
order: `vkWaitForFences` on the current slot's fence (returns only if the
fence is signaled or a pending submission will signal it; the return of the
wait means that submission has completed, so the fence is then signaled);
`vkAcquireNextImageKHR`; the staleness check
`result == VK_ERROR_OUT_OF_DATE_KHR || result == VK_SUBOPTIMAL_KHR ||
mIsWindowResizeDirty` which clears the dirty flag, runs
`RecreateSwapChain` and returns early; the fatal check
`result != VK_SUCCESS`; `UpdateUniformBuffer` (no modelled field);
`vkResetFences` on the slot's fence; `vkQueueSubmit` signaling that fence
(throwing on failure); `vkQueuePresentKHR` with its result discarded; and
the advance `mCurrentRenderFrame = (mCurrentRenderFrame + 1) %
kMaxFramesInFlight`. -/
def DrawFrame (inp : FrameInputs) (s : RendererState) : DrawOutcome :=
  let cur := s.mCurrentRenderFrame
  if s.mFencesInFlight.getD cur FenceState.unsignaled = FenceState.unsignaled then
    DrawOutcome.blockedOnFence
  else
    let s0 := { s with mFencesInFlight :=
                  s.mFencesInFlight.set cur FenceState.signaled }
    if inp.acquireResult = VkResult.VK_ERROR_OUT_OF_DATE_KHR ∨
       inp.acquireResult = VkResult.VK_SUBOPTIMAL_KHR ∨
       s0.mIsWindowResizeDirty = true then
      let s1 := { s0 with mIsWindowResizeDirty := false }
      match RecreateSwapChain inp.recreateEnv s1 with
      | none => DrawOutcome.blockedInRecreate
      | some s2 => DrawOutcome.aborted s2
    else if inp.acquireResult ≠ VkResult.VK_SUCCESS then
      DrawOutcome.fatalError RenderError.acquireFailed s0
    else
      let s2 := { s0 with mFencesInFlight :=
                    s0.mFencesInFlight.set cur FenceState.unsignaled }
      if inp.submitOk then
        let s3 := { s2 with
          mFencesInFlight := s2.mFencesInFlight.set cur FenceState.pending,
          submitCount := s2.submitCount + 1 }
        let s4 := { s3 with presentCount := s3.presentCount + 1 }
        DrawOutcome.completed
          { s4 with mCurrentRenderFrame := (cur + 1) % kMaxFramesInFlight }
      else
        DrawOutcome.fatalError RenderError.submitFailed s2

/-- The part of `MVulkanRenderer::pfInitialize` (lines 142-224) that builds
the modelled state, in source order: `CreateSwapChain`,
`GetSwapChainImageHandles`, `CreateSwapChainImageViews`, (render pass /
pipeline / pools / depth:) `CreateFrameBuffer`, (model, buffers,
descriptors:) `CreateCommandBuffers`, `CreateDefaultSemaphores`.
`mCurrentRenderFrame = 0` and `mIsWindowResizeDirty = false` are the
member initializers from MVulkanRenderer.h lines 264-267. -/
def initRenderer (env : SwapChainEnv) (fbW fbH : Nat)
    (imageAvailHandle renderFinHandle : Nat → Nat) : RendererState :=
  let s0 : RendererState :=
    { mSwapChainImages := [], mSwapChainImageViews := [],
      mSwapChainFrameBuffers := [], mCommandBuffers := [],
      mSwapChainExtent := ⟨0, 0⟩, mSwapChainImageFormat := 0,
      mSemaphoreImageAvailable := [], mSemaphoreRenderFinished := [],
      mFencesInFlight := [],
      mCurrentRenderFrame := 0, mIsWindowResizeDirty := false }
  let s1 := CreateSwapChain env fbW fbH s0
  let s2 := { s1 with mSwapChainImages := GetSwapChainImageHandles env }
  let s3 := CreateSwapChainImageViews env s2
  let s4 := CreateFrameBuffer env s3
  let s5 := CreateCommandBuffers env s4
  CreateDefaultSemaphores imageAvailHandle renderFinHandle s5

/-- States reachable by initialization followed by any number of
non-fatal, non-blocking `DrawFrame` calls. -/
inductive Reachable : RendererState → Prop where
  | init (env : SwapChainEnv) (fbW fbH : Nat) (hA hR : Nat → Nat) :
      Reachable (initRenderer env fbW fbH hA hR)
  | completed {s s' : RendererState} (inp : FrameInputs) :
      Reachable s → DrawFrame inp s = DrawOutcome.completed s' → Reachable s'
  | aborted {s s' : RendererState} (inp : FrameInputs) :
      Reachable s → DrawFrame inp s = DrawOutcome.aborted s' → Reachable s'

/-- Running a list of `DrawFrame` calls, stopping (with `none`) as soon as
one of them does not complete normally. -/
def runDrawFrames : List FrameInputs → RendererState → Option RendererState
  | [], s => some s
  | inp :: rest, s =>
    match DrawFrame inp s with
    | DrawOutcome.completed s' => runDrawFrames rest s'
    | _ => none

/-- The ring invariant maintained by the frame loop: the slot counter stays
below `kMaxFramesInFlight`, the fence vector keeps its creation-time size,
and no fence is ever left unsignaled without a submission that will signal
it. -/
def RingInv (s : RendererState) : Prop :=
  s.mCurrentRenderFrame < kMaxFramesInFlight ∧
  s.mFencesInFlight.length = kMaxFramesInFlight ∧
  ∀ f ∈ s.mFencesInFlight, f ≠ FenceState.unsignaled

/-- A concrete surface capability report used by witnesses: a surface of
800×600 with a definite current extent. -/
def sampleCaps : VkSurfaceCapabilitiesKHR :=
  ⟨2, 0, ⟨800, 600⟩, ⟨1, 1⟩, ⟨4096, 4096⟩⟩

/-- A concrete (re)creation environment used by witnesses. -/
def sampleEnv : SwapChainEnv where
  mFormats := [⟨VK_FORMAT_B8G8R8A8_UNORM, VK_COLOR_SPACE_SRGB_NONLINEAR_KHR⟩]
  mPresentModes := [VK_PRESENT_MODE_FIFO_KHR]
  mCapabilities := sampleCaps
  fbPollSizes := [(800, 600)]
  newImages := [11, 12, 13]
  imageViewOf := fun n => n + 100
  framebufferOf := fun n => n + 1000
  commandBufferAt := fun n => n + 5000

/-- A concrete image-available semaphore handle allocation for witnesses. -/
def sampleIAHandle : Nat → Nat := fun n => n + 20

/-- A concrete render-finished semaphore handle allocation for witnesses. -/
def sampleRFHandle : Nat → Nat := fun n => n + 30

/-- The renderer state right after `pfInitialize`, on the witness
environment. -/
def sampleInit : RendererState :=
  initRenderer sampleEnv 800 600 sampleIAHandle sampleRFHandle

/-- A frame where acquisition and submission both succeed. -/
def sampleNormalInput : FrameInputs :=
  ⟨VkResult.VK_SUCCESS, 0, true, VkResult.VK_SUCCESS, sampleEnv⟩

/-- A frame where acquisition reports `VK_ERROR_OUT_OF_DATE_KHR`. -/
def sampleStaleInput : FrameInputs :=
  ⟨VkResult.VK_ERROR_OUT_OF_DATE_KHR, 0, true, VkResult.VK_SUCCESS, sampleEnv⟩

/-- A frame where acquisition reports an unrecognized failure code. -/
def sampleAcquireFailInput : FrameInputs :=
  ⟨VkResult.otherError 3, 0, true, VkResult.VK_SUCCESS, sampleEnv⟩

/-- A recreation environment whose window stays zero-sized on every poll. -/
def sampleZeroEnv : SwapChainEnv :=
  { sampleEnv with fbPollSizes := [(0, 300), (200, 0)] }

/-- A capability report whose current extent is the "any size" sentinel. -/
def sampleSentinelCaps : VkSurfaceCapabilitiesKHR :=
  ⟨1, 0, ⟨NumericalMaxTU32, NumericalMaxTU32⟩, ⟨10, 10⟩, ⟨20, 20⟩⟩

/-- A frame where the queue submission is rejected. -/
def sampleSubmitFailInput : FrameInputs :=
  ⟨VkResult.VK_SUCCESS, 0, false, VkResult.VK_SUCCESS, sampleEnv⟩

/-- A frame identical to `sampleNormalInput` except that the present call
reports a failure code. -/
def samplePresentFailInput : FrameInputs :=
  ⟨VkResult.VK_SUCCESS, 0, true, VkResult.otherError 9, sampleEnv⟩

/-- Whether a `DrawFrame` outcome is a normal completion. -/
def DrawOutcome.isCompleted : DrawOutcome → Bool
  | DrawOutcome.completed _ => true
  | _ => false

/-- Whether a `DrawFrame` outcome is the thrown acquire error. -/
def DrawOutcome.isFatalAcquire : DrawOutcome → Bool
  | DrawOutcome.fatalError RenderError.acquireFailed _ => true
  | _ => false

/-- Whether a `DrawFrame` outcome is the thrown submit error. -/
def DrawOutcome.isFatalSubmit : DrawOutcome → Bool
  | DrawOutcome.fatalError RenderError.submitFailed _ => true
  | _ => false

/-- The state the witness's aborted frame leaves behind. -/
def samplePostStale : RendererState :=
  match DrawFrame sampleStaleInput sampleInit with
  | DrawOutcome.aborted s => s
  | _ => sampleInit

/-- The state after three successful witness frames. -/
def sampleRunState : RendererState :=
  (runDrawFrames [sampleNormalInput, sampleNormalInput, sampleNormalInput]
    sampleInit).getD sampleInit

/-- `std::clamp` agrees with the order-theoretic clamp `max lo (min v hi)`
whenever `lo ≤ hi` (the precondition `std::clamp` demands). -/
theorem stdClamp_eq_max_min (v lo hi : Nat) (h : lo ≤ hi) :
    stdClamp v lo hi = max lo (min v hi) := by
  unfold stdClamp
  split_ifs <;> omega

/-- What a successful `RecreateSwapChain` does to every modelled field:
the synchronization ring, the slot counter, the dirty flag and the
submit/present counters are untouched; the swapchain-derived resources are
rebuilt from the environment; the recreation counter increments. -/
theorem RecreateSwapChain_some_spec {env : SwapChainEnv} {t t' : RendererState}
    (h : RecreateSwapChain env t = some t') :
    t'.mFencesInFlight = t.mFencesInFlight ∧
    t'.mSemaphoreImageAvailable = t.mSemaphoreImageAvailable ∧
    t'.mSemaphoreRenderFinished = t.mSemaphoreRenderFinished ∧
    t'.mCurrentRenderFrame = t.mCurrentRenderFrame ∧
    t'.mIsWindowResizeDirty = t.mIsWindowResizeDirty ∧
    t'.recreateCount = t.recreateCount + 1 ∧
    t'.submitCount = t.submitCount ∧
    t'.presentCount = t.presentCount ∧
    t'.mSwapChainImages = env.newImages ∧
    t'.mSwapChainImageViews = env.newImages.map env.imageViewOf ∧
    t'.mSwapChainFrameBuffers =
      (env.newImages.map env.imageViewOf).map env.framebufferOf ∧
    t'.mCommandBuffers =
      (List.range env.newImages.length).map env.commandBufferAt := by
  unfold RecreateSwapChain at h
  split at h
  · exact absurd h (by simp)
  · injection h with h
    subst h
    simp [CreateSwapChain, CreateSwapChainImageViews, CreateFrameBuffer,
      CreateCommandBuffers, GetSwapChainImageHandles]

/-- The staleness condition `DrawFrame` tests after acquisition
(MVulkanRenderer.cpp lines 2459-2460). -/
def StaleCond (inp : FrameInputs) (s : RendererState) : Prop :=
  inp.acquireResult = VkResult.VK_ERROR_OUT_OF_DATE_KHR ∨
  inp.acquireResult = VkResult.VK_SUBOPTIMAL_KHR ∨
  s.mIsWindowResizeDirty = true

instance (inp : FrameInputs) (s : RendererState) : Decidable (StaleCond inp s) := by
  unfold StaleCond
  infer_instance

/-- Equation: `DrawFrame` blocks at Wait-For-Slot exactly when the current
slot's fence is unsignaled with no submission that will signal it. -/
theorem DrawFrame_eq_blockedOnFence {inp : FrameInputs} {s : RendererState}
    (hfence : s.mFencesInFlight.getD s.mCurrentRenderFrame FenceState.unsignaled =
      FenceState.unsignaled) :
    DrawFrame inp s = DrawOutcome.blockedOnFence := by
  unfold DrawFrame
  dsimp only
  rw [if_pos hfence]

/-- Equation: on the staleness condition the frame runs the recreation and
aborts (or stays blocked in the recreation's poll loop). -/
theorem DrawFrame_eq_stale {inp : FrameInputs} {s : RendererState}
    (hfence : s.mFencesInFlight.getD s.mCurrentRenderFrame FenceState.unsignaled ≠
      FenceState.unsignaled)
    (hstale : StaleCond inp s) :
    DrawFrame inp s =
      match RecreateSwapChain inp.recreateEnv
          { s with
            mFencesInFlight :=
              s.mFencesInFlight.set s.mCurrentRenderFrame FenceState.signaled,
            mIsWindowResizeDirty := false } with
      | none => DrawOutcome.blockedInRecreate
      | some s2 => DrawOutcome.aborted s2 := by
  unfold DrawFrame
  dsimp only
  unfold StaleCond at hstale
  rw [if_neg hfence, if_pos hstale]

/-- Equation: an acquisition result that is none of success, out-of-date or
suboptimal (with the dirty flag clear) throws the acquire error. -/
theorem DrawFrame_eq_fatal_acquire {inp : FrameInputs} {s : RendererState}
    (hfence : s.mFencesInFlight.getD s.mCurrentRenderFrame FenceState.unsignaled ≠
      FenceState.unsignaled)
    (hstale : ¬ StaleCond inp s)
    (hacq : inp.acquireResult ≠ VkResult.VK_SUCCESS) :
    DrawFrame inp s = DrawOutcome.fatalError RenderError.acquireFailed
      { s with
        mFencesInFlight :=
          s.mFencesInFlight.set s.mCurrentRenderFrame FenceState.signaled } := by
  unfold DrawFrame
  dsimp only
  unfold StaleCond at hstale
  rw [if_neg hfence, if_neg hstale, if_pos hacq]

/-- Equation: the fully successful frame — fence waited, acquisition
succeeded, no staleness, submission accepted — submits, presents and
advances the slot counter. -/
theorem DrawFrame_eq_completed {inp : FrameInputs} {s : RendererState}
    (hfence : s.mFencesInFlight.getD s.mCurrentRenderFrame FenceState.unsignaled ≠
      FenceState.unsignaled)
    (hstale : ¬ StaleCond inp s)
    (hacq : inp.acquireResult = VkResult.VK_SUCCESS)
    (hsub : inp.submitOk = true) :
    DrawFrame inp s = DrawOutcome.completed
      { s with
        mFencesInFlight :=
          s.mFencesInFlight.set s.mCurrentRenderFrame FenceState.pending,
        mCurrentRenderFrame := (s.mCurrentRenderFrame + 1) % kMaxFramesInFlight,
        submitCount := s.submitCount + 1,
        presentCount := s.presentCount + 1 } := by
  unfold DrawFrame
  dsimp only
  unfold StaleCond at hstale
  rw [if_neg hfence, if_neg hstale, if_neg (by simp [hacq]), if_pos hsub]
  simp [List.set_set]

/-- Equation: a rejected queue submission throws the submit error, leaving
the slot's fence reset (unsignaled) with nothing pending. -/
theorem DrawFrame_eq_fatal_submit {inp : FrameInputs} {s : RendererState}
    (hfence : s.mFencesInFlight.getD s.mCurrentRenderFrame FenceState.unsignaled ≠
      FenceState.unsignaled)
    (hstale : ¬ StaleCond inp s)
    (hacq : inp.acquireResult = VkResult.VK_SUCCESS)
    (hsub : inp.submitOk = false) :
    DrawFrame inp s = DrawOutcome.fatalError RenderError.submitFailed
      { s with
        mFencesInFlight :=
          s.mFencesInFlight.set s.mCurrentRenderFrame FenceState.unsignaled } := by
  unfold DrawFrame
  dsimp only
  unfold StaleCond at hstale
  rw [if_neg hfence, if_neg hstale, if_neg (by simp [hacq]),
    if_neg (by simp [hsub]), List.set_set]

/-- Inversion of a normally completed `DrawFrame`: the inputs must have
been a successful acquisition with the dirty flag clear and a successful
submission, and the output state differs from the input state exactly by
the slot's fence becoming pending, the submit/present counters, and the
slot advance. -/
theorem DrawFrame_completed_spec {inp : FrameInputs} {s s' : RendererState}
    (h : DrawFrame inp s = DrawOutcome.completed s') :
    inp.acquireResult = VkResult.VK_SUCCESS ∧
    inp.submitOk = true ∧
    s.mIsWindowResizeDirty = false ∧
    s' = { s with
      mFencesInFlight :=
        s.mFencesInFlight.set s.mCurrentRenderFrame FenceState.pending,
      mCurrentRenderFrame := (s.mCurrentRenderFrame + 1) % kMaxFramesInFlight,
      submitCount := s.submitCount + 1,
      presentCount := s.presentCount + 1 } := by
  by_cases hfence : s.mFencesInFlight.getD s.mCurrentRenderFrame
      FenceState.unsignaled = FenceState.unsignaled
  · rw [DrawFrame_eq_blockedOnFence hfence] at h
    exact absurd h (by simp)
  · by_cases hstale : StaleCond inp s
    · rw [DrawFrame_eq_stale hfence hstale] at h
      rcases hrec : RecreateSwapChain inp.recreateEnv
          { s with
            mFencesInFlight :=
              s.mFencesInFlight.set s.mCurrentRenderFrame FenceState.signaled,
            mIsWindowResizeDirty := false } with _ | s2 <;>
        rw [hrec] at h <;> simp at h
    · by_cases hacq : inp.acquireResult = VkResult.VK_SUCCESS
      · by_cases hsub : inp.submitOk = true
        · rw [DrawFrame_eq_completed hfence hstale hacq hsub] at h
          injection h with h
          have hdirty : s.mIsWindowResizeDirty = false := by
            unfold StaleCond at hstale
            push_neg at hstale
            simpa using hstale.2.2
          exact ⟨hacq, hsub, hdirty, h.symm⟩
        · rw [DrawFrame_eq_fatal_submit hfence hstale hacq
            (by simpa using hsub)] at h
          exact absurd h (by simp)
      · rw [DrawFrame_eq_fatal_acquire hfence hstale hacq] at h
        exact absurd h (by simp)

/-- Inversion of an aborted `DrawFrame`: the staleness condition held, the
dirty flag is cleared, the slot counter is unchanged (no Advance), the
recreation ran exactly once, no submission and no present were issued, and
the synchronization ring was only touched by the slot's wait (its fence is
signaled) — in particular the ring kept its size. -/
theorem DrawFrame_aborted_spec {inp : FrameInputs} {s s' : RendererState}
    (h : DrawFrame inp s = DrawOutcome.aborted s') :
    StaleCond inp s ∧
    s'.mIsWindowResizeDirty = false ∧
    s'.mCurrentRenderFrame = s.mCurrentRenderFrame ∧
    s'.recreateCount = s.recreateCount + 1 ∧
    s'.submitCount = s.submitCount ∧
    s'.presentCount = s.presentCount ∧
    s'.mSemaphoreImageAvailable = s.mSemaphoreImageAvailable ∧
    s'.mSemaphoreRenderFinished = s.mSemaphoreRenderFinished ∧
    s'.mFencesInFlight =
      s.mFencesInFlight.set s.mCurrentRenderFrame FenceState.signaled := by
  by_cases hfence : s.mFencesInFlight.getD s.mCurrentRenderFrame
      FenceState.unsignaled = FenceState.unsignaled
  · rw [DrawFrame_eq_blockedOnFence hfence] at h
    exact absurd h (by simp)
  · by_cases hstale : StaleCond inp s
    · rw [DrawFrame_eq_stale hfence hstale] at h
      rcases hrec : RecreateSwapChain inp.recreateEnv
          { s with
            mFencesInFlight :=
              s.mFencesInFlight.set s.mCurrentRenderFrame FenceState.signaled,
            mIsWindowResizeDirty := false } with _ | s2 <;> rw [hrec] at h
      · exact absurd h (by simp)
      · have hspec := RecreateSwapChain_some_spec hrec
        have hs2 : s2 = s' := by simpa using h
        subst hs2
        refine ⟨hstale, ?_, ?_, ?_, ?_, ?_, ?_, ?_, ?_⟩ <;>
          simp only [hspec.1, hspec.2.1, hspec.2.2.1, hspec.2.2.2.1,
            hspec.2.2.2.2.1, hspec.2.2.2.2.2.1, hspec.2.2.2.2.2.2.1,
            hspec.2.2.2.2.2.2.2.1]
    · by_cases hacq : inp.acquireResult = VkResult.VK_SUCCESS
      · by_cases hsub : inp.submitOk = true
        · rw [DrawFrame_eq_completed hfence hstale hacq hsub] at h
          exact absurd h (by simp)
        · rw [DrawFrame_eq_fatal_submit hfence hstale hacq
            (by simpa using hsub)] at h
          exact absurd h (by simp)
      · rw [DrawFrame_eq_fatal_acquire hfence hstale hacq] at h
        exact absurd h (by simp)

/-- Under the ring invariant, the fence `DrawFrame` waits on is not stuck. -/
theorem ringInv_fence_ok {s : RendererState} (h : RingInv s) :
    s.mFencesInFlight.getD s.mCurrentRenderFrame FenceState.unsignaled ≠
      FenceState.unsignaled := by
  obtain ⟨hcur, hlen, hmem⟩ := h
  have hlt : s.mCurrentRenderFrame < s.mFencesInFlight.length := by omega
  rw [List.getD_eq_getElem _ _ hlt]
  exact hmem _ (List.getElem_mem hlt)

/-- The initial renderer state satisfies the ring invariant: the slot
counter starts at 0, and the `kMaxFramesInFlight` fences are created
already signaled (`VK_FENCE_CREATE_SIGNALED_BIT`). -/
theorem ringInv_init (env : SwapChainEnv) (fbW fbH : Nat)
    (hA hR : Nat → Nat) : RingInv (initRenderer env fbW fbH hA hR) := by
  refine ⟨?_, ?_, ?_⟩
  · simp [initRenderer, CreateDefaultSemaphores, CreateCommandBuffers,
      CreateFrameBuffer, CreateSwapChainImageViews, CreateSwapChain,
      kMaxFramesInFlight]
  · simp [initRenderer, CreateDefaultSemaphores, CreateCommandBuffers,
      CreateFrameBuffer, CreateSwapChainImageViews, CreateSwapChain]
  · intro f hf
    simp only [initRenderer, CreateDefaultSemaphores, CreateCommandBuffers,
      CreateFrameBuffer, CreateSwapChainImageViews, CreateSwapChain] at hf
    rw [List.eq_of_mem_replicate hf]
    simp

/-- A completed `DrawFrame` preserves the ring invariant. -/
theorem ringInv_completed {inp : FrameInputs} {s s' : RendererState}
    (hInv : RingInv s) (h : DrawFrame inp s = DrawOutcome.completed s') :
    RingInv s' := by
  obtain ⟨-, -, -, rfl⟩ := DrawFrame_completed_spec h
  obtain ⟨hcur, hlen, hmem⟩ := hInv
  refine ⟨?_, ?_, ?_⟩
  · exact Nat.mod_lt _ (by simp [kMaxFramesInFlight])
  · simpa using hlen
  · intro f hf
    simp only at hf
    rcases List.mem_or_eq_of_mem_set hf with hmem' | rfl
    · exact hmem _ hmem'
    · simp

/-- An aborted `DrawFrame` preserves the ring invariant. -/
theorem ringInv_aborted {inp : FrameInputs} {s s' : RendererState}
    (hInv : RingInv s) (h : DrawFrame inp s = DrawOutcome.aborted s') :
    RingInv s' := by
  obtain ⟨-, -, hcur', -, -, -, -, -, hfences⟩ := DrawFrame_aborted_spec h
  obtain ⟨hcur, hlen, hmem⟩ := hInv
  refine ⟨?_, ?_, ?_⟩
  · rw [hcur']
    exact hcur
  · rw [hfences]
    simpa using hlen
  · intro f hf
    rw [hfences] at hf
    rcases List.mem_or_eq_of_mem_set hf with hmem' | rfl
    · exact hmem _ hmem'
    · simp

/-- Every reachable renderer state satisfies the ring invariant. -/
theorem reachable_ringInv {s : RendererState} (h : Reachable s) : RingInv s := by
  induction h with
  | init env fbW fbH hA hR => exact ringInv_init env fbW fbH hA hR
  | completed inp _ hdf ih => exact ringInv_completed ih hdf
  | aborted inp _ hdf ih => exact ringInv_aborted ih hdf

/-- A run of `DrawFrame` calls whose inputs all report successful
acquisition and successful submission, started in a clean state (ring
invariant, dirty flag clear), completes every frame and leaves the slot
counter at `(start + N) mod kMaxFramesInFlight`. -/
theorem runDrawFrames_normal (inps : List FrameInputs) (s : RendererState)
    (hInv : RingInv s) (hdirty : s.mIsWindowResizeDirty = false)
    (hgood : ∀ inp ∈ inps,
      inp.acquireResult = VkResult.VK_SUCCESS ∧ inp.submitOk = true) :
    ∃ s', runDrawFrames inps s = some s' ∧
      s'.mCurrentRenderFrame =
        (s.mCurrentRenderFrame + inps.length) % kMaxFramesInFlight := by
  induction inps generalizing s with
  | nil =>
    refine ⟨s, rfl, ?_⟩
    have := hInv.1
    simp only [List.length_nil, Nat.add_zero]
    rw [Nat.mod_eq_of_lt this]
  | cons inp rest ih =>
    obtain ⟨hacq, hsub⟩ := hgood inp (List.mem_cons_self inp rest)
    have hstale : ¬ StaleCond inp s := by
      unfold StaleCond
      simp [hacq, hdirty]
    have hdf := DrawFrame_eq_completed (ringInv_fence_ok hInv) hstale hacq hsub
    have hInv' := ringInv_completed hInv hdf
    have hdirty' : RendererState.mIsWindowResizeDirty { s with
        mFencesInFlight :=
          s.mFencesInFlight.set s.mCurrentRenderFrame FenceState.pending,
        mCurrentRenderFrame := (s.mCurrentRenderFrame + 1) % kMaxFramesInFlight,
        submitCount := s.submitCount + 1,
        presentCount := s.presentCount + 1 } = false := hdirty
    obtain ⟨s', hrun, hframe⟩ := ih _ hInv' hdirty'
      (fun i hi => hgood i (List.mem_cons_of_mem inp hi))
    refine ⟨s', ?_, ?_⟩
    · simp only [runDrawFrames, hdf]
      exact hrun
    · rw [hframe]
      simp only [List.length_cons, kMaxFramesInFlight]
      omega

/-- C3 counterexample: with `IMMEDIATE` listed before `MAILBOX`, the
selection returns `IMMEDIATE` even though `MAILBOX` is present, refuting
"returns MAILBOX whenever it is present in the list". -/
theorem C3_counterexample :
    VK_PRESENT_MODE_MAILBOX_KHR ∈
      [VK_PRESENT_MODE_IMMEDIATE_KHR, VK_PRESENT_MODE_MAILBOX_KHR] ∧
    ChooseSwapPresentMode
        [VK_PRESENT_MODE_IMMEDIATE_KHR, VK_PRESENT_MODE_MAILBOX_KHR] ≠
      VK_PRESENT_MODE_MAILBOX_KHR := by
  decide

/-- C3 (amended): presentation-mode selection returns the first mode in
list order that is `MAILBOX` or `IMMEDIATE` — so `MAILBOX` whenever it is
present with no earlier `IMMEDIATE`, `IMMEDIATE` whenever it is present
with no earlier `MAILBOX` — and the strict-FIFO mode when neither mode
occurs in the list. -/
theorem C3_present_mode_selection (l : List Nat) :
    (VK_PRESENT_MODE_MAILBOX_KHR ∉ l ∧ VK_PRESENT_MODE_IMMEDIATE_KHR ∉ l →
      ChooseSwapPresentMode l = VK_PRESENT_MODE_FIFO_KHR) ∧
    (∀ l₁ l₂, l = l₁ ++ VK_PRESENT_MODE_MAILBOX_KHR :: l₂ →
      VK_PRESENT_MODE_IMMEDIATE_KHR ∉ l₁ →
      ChooseSwapPresentMode l = VK_PRESENT_MODE_MAILBOX_KHR) ∧
    (∀ l₁ l₂, l = l₁ ++ VK_PRESENT_MODE_IMMEDIATE_KHR :: l₂ →
      VK_PRESENT_MODE_MAILBOX_KHR ∉ l₁ →
      ChooseSwapPresentMode l = VK_PRESENT_MODE_IMMEDIATE_KHR) := by
  refine ⟨?_, ?_, ?_⟩
  · rintro ⟨hm, hi⟩
    unfold ChooseSwapPresentMode
    have hnone : l.find? (fun m =>
        m == VK_PRESENT_MODE_MAILBOX_KHR ||
        m == VK_PRESENT_MODE_IMMEDIATE_KHR) = none := by
      rw [List.find?_eq_none]
      intro x hx hpx
      simp only [Bool.or_eq_true, beq_iff_eq] at hpx
      rcases hpx with rfl | rfl
      · exact hm hx
      · exact hi hx
    rw [hnone]
  · intro l₁ l₂ hl hni
    subst hl
    unfold ChooseSwapPresentMode
    rw [List.find?_append]
    rcases hfind : l₁.find? (fun m =>
        m == VK_PRESENT_MODE_MAILBOX_KHR ||
        m == VK_PRESENT_MODE_IMMEDIATE_KHR) with _ | x
    · rw [List.find?_cons_of_pos _ (by simp)]
      simp
    · have hpx := List.find?_some hfind
      have hxmem := List.mem_of_find?_eq_some hfind
      simp only [Bool.or_eq_true, beq_iff_eq] at hpx
      have hx : x = VK_PRESENT_MODE_MAILBOX_KHR := by
        rcases hpx with rfl | rfl
        · rfl
        · exact absurd hxmem hni
      subst hx
      simp
  · intro l₁ l₂ hl hnm
    subst hl
    unfold ChooseSwapPresentMode
    rw [List.find?_append]
    rcases hfind : l₁.find? (fun m =>
        m == VK_PRESENT_MODE_MAILBOX_KHR ||
        m == VK_PRESENT_MODE_IMMEDIATE_KHR) with _ | x
    · rw [List.find?_cons_of_pos _ (by simp)]
      simp
    · have hpx := List.find?_some hfind
      have hxmem := List.mem_of_find?_eq_some hfind
      simp only [Bool.or_eq_true, beq_iff_eq] at hpx
      have hx : x = VK_PRESENT_MODE_IMMEDIATE_KHR := by
        rcases hpx with rfl | rfl
        · exact absurd hxmem hnm
        · rfl
      subst hx
      simp

/-- C3 witness: on `[IMMEDIATE, MAILBOX]` the selection returns
`IMMEDIATE`, the first of the two preferred modes in list order. -/
theorem C3_witness :
    ChooseSwapPresentMode
        [VK_PRESENT_MODE_IMMEDIATE_KHR, VK_PRESENT_MODE_MAILBOX_KHR] =
      VK_PRESENT_MODE_IMMEDIATE_KHR :=
  (C3_present_mode_selection
      [VK_PRESENT_MODE_IMMEDIATE_KHR, VK_PRESENT_MODE_MAILBOX_KHR]).2.2
    [] [VK_PRESENT_MODE_MAILBOX_KHR] rfl (by simp)

/-- C6: the swapchain image count is `minImageCount + 1` clamped into
`[minImageCount, maxImageCount]` when `maxImageCount > 0`, and exactly
`minImageCount + 1` (unclamped) when `maxImageCount = 0`; with
`minImageCount = 2` and `maxImageCount = 0` it is `3`.  The hypotheses are
the surface-report well-formedness the Vulkan specification guarantees:
no `TU32` overflow of `minImageCount + 1`, and `minImageCount ≤
maxImageCount` whenever the maximum is bounded. -/
theorem C6_swapchain_image_count (caps : VkSurfaceCapabilitiesKHR)
    (hof : caps.minImageCount + 1 < 2 ^ 32)
    (hmm : caps.maxImageCount > 0 → caps.minImageCount ≤ caps.maxImageCount) :
    (caps.maxImageCount > 0 →
      CreateSwapChainImageCount caps =
        max caps.minImageCount
          (min (caps.minImageCount + 1) caps.maxImageCount)) ∧
    (caps.maxImageCount = 0 →
      CreateSwapChainImageCount caps = caps.minImageCount + 1) ∧
    (caps.minImageCount = 2 → caps.maxImageCount = 0 →
      CreateSwapChainImageCount caps = 3) := by
  unfold CreateSwapChainImageCount
  dsimp only
  rw [Nat.mod_eq_of_lt hof]
  refine ⟨?_, ?_, ?_⟩
  · intro h
    rw [if_pos h, stdClamp_eq_max_min _ _ _ (hmm h)]
  · intro h
    rw [if_neg (by omega)]
  · intro h2 h0
    rw [if_neg (by omega), h2]

/-- C6 witness: the sample report has `minImageCount = 2` and
`maxImageCount = 0`, and the chosen count is `3`. -/
theorem C6_witness : CreateSwapChainImageCount sampleCaps = 3 :=
  (C6_swapchain_image_count sampleCaps (by decide) (by decide)).2.2 rfl rfl

/-- C7: if the sole supported entry has the undefined format, format
selection returns the canonical `{B8G8R8A8_UNORM, SRGB_NONLINEAR}` pair
directly; otherwise it returns the canonical pair when that pair occurs
anywhere in the list, and the first entry of the list when it does not.
(The list is assumed non-empty: `front()` on an empty vector is undefined
behaviour.) -/
theorem C7_surface_format_selection (l : List VkSurfaceFormatKHR)
    (hne : l ≠ []) :
    ((∃ f, l = [f] ∧ f.format = VK_FORMAT_UNDEFINED) →
      ChoooseSwapSurfaceFormat l =
        ⟨VK_FORMAT_B8G8R8A8_UNORM, VK_COLOR_SPACE_SRGB_NONLINEAR_KHR⟩) ∧
    (¬ (∃ f, l = [f] ∧ f.format = VK_FORMAT_UNDEFINED) →
      ((⟨VK_FORMAT_B8G8R8A8_UNORM, VK_COLOR_SPACE_SRGB_NONLINEAR_KHR⟩ :
          VkSurfaceFormatKHR) ∈ l →
        ChoooseSwapSurfaceFormat l =
          ⟨VK_FORMAT_B8G8R8A8_UNORM, VK_COLOR_SPACE_SRGB_NONLINEAR_KHR⟩) ∧
      ((⟨VK_FORMAT_B8G8R8A8_UNORM, VK_COLOR_SPACE_SRGB_NONLINEAR_KHR⟩ :
          VkSurfaceFormatKHR) ∉ l →
        ChoooseSwapSurfaceFormat l = l.head hne)) := by
  constructor
  · rintro ⟨f, rfl, hf⟩
    unfold ChoooseSwapSurfaceFormat
    rw [if_pos (by simp [hf])]
  · intro hsole
    have hcond : ¬ ((l.length == 1 &&
        ((l.headD ⟨0, 0⟩).format == VK_FORMAT_UNDEFINED)) = true) := by
      rcases l with _ | ⟨f, _ | ⟨g, rest⟩⟩
      · exact absurd rfl hne
      · have hf : f.format ≠ VK_FORMAT_UNDEFINED := fun hf => hsole ⟨f, rfl, hf⟩
        simp [hf]
      · simp
    constructor
    · intro hmem
      unfold ChoooseSwapSurfaceFormat
      rw [if_neg hcond]
      have hsome : (l.find? fun f =>
          f.format == VK_FORMAT_B8G8R8A8_UNORM &&
          f.colorSpace == VK_COLOR_SPACE_SRGB_NONLINEAR_KHR).isSome := by
        rw [List.find?_isSome]
        exact ⟨_, hmem, by simp⟩
      obtain ⟨x, hx⟩ := Option.isSome_iff_exists.mp hsome
      rw [hx]
      have hpx := List.find?_some hx
      simp only [Bool.and_eq_true, beq_iff_eq] at hpx
      cases x
      simp_all
    · intro hmem
      unfold ChoooseSwapSurfaceFormat
      rw [if_neg hcond]
      have hnone : (l.find? fun f =>
          f.format == VK_FORMAT_B8G8R8A8_UNORM &&
          f.colorSpace == VK_COLOR_SPACE_SRGB_NONLINEAR_KHR) = none := by
        rw [List.find?_eq_none]
        intro x hx hpx
        simp only [Bool.and_eq_true, beq_iff_eq] at hpx
        apply hmem
        have hxc : x = ⟨VK_FORMAT_B8G8R8A8_UNORM,
            VK_COLOR_SPACE_SRGB_NONLINEAR_KHR⟩ := by
          cases x
          simp_all
        rwa [hxc] at hx
      rw [hnone]
      rcases l with _ | ⟨f, rest⟩
      · exact absurd rfl hne
      · rfl

/-- C7 witness: a surface whose only entry is the undefined sentinel (with
an arbitrary color space) yields the canonical pair. -/
theorem C7_witness :
    ChoooseSwapSurfaceFormat [⟨VK_FORMAT_UNDEFINED, 7⟩] =
      ⟨VK_FORMAT_B8G8R8A8_UNORM, VK_COLOR_SPACE_SRGB_NONLINEAR_KHR⟩ :=
  (C7_surface_format_selection [⟨VK_FORMAT_UNDEFINED, 7⟩] (by simp)).1
    ⟨⟨VK_FORMAT_UNDEFINED, 7⟩, rfl, rfl⟩

/-- C8: when the report's current extent is definite (not the "any size"
sentinel), the chosen resolution is that extent verbatim and lies within
`[minImageExtent, maxImageExtent]` component-wise; when the current extent
is the sentinel, the chosen resolution is the live framebuffer size
clamped component-wise into that range.  The hypotheses are the
surface-report well-formedness the Vulkan specification guarantees: the
sentinel marks both components or neither, a definite current extent lies
within the extent range, and the range is non-degenerate. -/
theorem C8_resolution_selection (caps : VkSurfaceCapabilitiesKHR)
    (fbW fbH : Nat)
    (hsent : caps.currentExtent.width = NumericalMaxTU32 ↔
      caps.currentExtent.height = NumericalMaxTU32)
    (hwithin : caps.currentExtent ≠ ⟨NumericalMaxTU32, NumericalMaxTU32⟩ →
      caps.minImageExtent.width ≤ caps.currentExtent.width ∧
      caps.currentExtent.width ≤ caps.maxImageExtent.width ∧
      caps.minImageExtent.height ≤ caps.currentExtent.height ∧
      caps.currentExtent.height ≤ caps.maxImageExtent.height)
    (hrange : caps.minImageExtent.width ≤ caps.maxImageExtent.width ∧
      caps.minImageExtent.height ≤ caps.maxImageExtent.height) :
    (caps.currentExtent ≠ ⟨NumericalMaxTU32, NumericalMaxTU32⟩ →
      ChooseSwapResolution caps fbW fbH = caps.currentExtent ∧
      caps.minImageExtent.width ≤ (ChooseSwapResolution caps fbW fbH).width ∧
      (ChooseSwapResolution caps fbW fbH).width ≤ caps.maxImageExtent.width ∧
      caps.minImageExtent.height ≤ (ChooseSwapResolution caps fbW fbH).height ∧
      (ChooseSwapResolution caps fbW fbH).height ≤ caps.maxImageExtent.height) ∧
    (caps.currentExtent = ⟨NumericalMaxTU32, NumericalMaxTU32⟩ →
      (ChooseSwapResolution caps fbW fbH).width =
        max caps.minImageExtent.width (min fbW caps.maxImageExtent.width) ∧
      (ChooseSwapResolution caps fbW fbH).height =
        max caps.minImageExtent.height (min fbH caps.maxImageExtent.height)) := by
  constructor
  · intro hdef
    have hw : caps.currentExtent.width ≠ NumericalMaxTU32 := by
      intro hwmax
      apply hdef
      have hh := hsent.mp hwmax
      cases hce : caps.currentExtent
      rw [hce] at hwmax hh
      simp only at hwmax hh
      rw [hwmax, hh]
    have heq : ChooseSwapResolution caps fbW fbH = caps.currentExtent := by
      unfold ChooseSwapResolution
      rw [if_pos hw]
    obtain ⟨h1, h2, h3, h4⟩ := hwithin hdef
    rw [heq]
    exact ⟨rfl, h1, h2, h3, h4⟩
  · intro hsentinel
    have hw : caps.currentExtent.width = NumericalMaxTU32 := by
      rw [hsentinel]
    have heq : ChooseSwapResolution caps fbW fbH =
        { width := stdClamp fbW caps.minImageExtent.width
            caps.maxImageExtent.width,
          height := stdClamp fbH caps.minImageExtent.height
            caps.maxImageExtent.height } := by
      unfold ChooseSwapResolution
      rw [if_neg (by simpa using hw)]
    rw [heq]
    exact ⟨stdClamp_eq_max_min _ _ _ hrange.1, stdClamp_eq_max_min _ _ _ hrange.2⟩

/-- C8 witness: a report with the sentinel current extent and range
`[10,20]²`, with live framebuffer size 15×5, yields the clamped 15×10. -/
theorem C8_witness :
    (ChooseSwapResolution sampleSentinelCaps 15 5).width =
      max sampleSentinelCaps.minImageExtent.width
        (min 15 sampleSentinelCaps.maxImageExtent.width) ∧
    (ChooseSwapResolution sampleSentinelCaps 15 5).height =
      max sampleSentinelCaps.minImageExtent.height
        (min 5 sampleSentinelCaps.maxImageExtent.height) :=
  (C8_resolution_selection sampleSentinelCaps 15 5 (by decide)
    (by intro h; exact absurd rfl h) (by decide)).2 rfl

/-- The modelled fields of the state `pfInitialize` produces. -/
theorem initRenderer_spec (env : SwapChainEnv) (fbW fbH : Nat)
    (hA hR : Nat → Nat) :
    (initRenderer env fbW fbH hA hR).mCurrentRenderFrame = 0 ∧
    (initRenderer env fbW fbH hA hR).mIsWindowResizeDirty = false ∧
    (initRenderer env fbW fbH hA hR).mSwapChainImages = env.newImages ∧
    (initRenderer env fbW fbH hA hR).mSwapChainImageViews =
      env.newImages.map env.imageViewOf ∧
    (initRenderer env fbW fbH hA hR).mSwapChainFrameBuffers =
      (env.newImages.map env.imageViewOf).map env.framebufferOf ∧
    (initRenderer env fbW fbH hA hR).mCommandBuffers =
      (List.range env.newImages.length).map env.commandBufferAt := by
  refine ⟨?_, ?_, ?_, ?_, ?_, ?_⟩ <;>
    simp [initRenderer, CreateDefaultSemaphores, CreateCommandBuffers,
      CreateFrameBuffer, CreateSwapChainImageViews, CreateSwapChain,
      GetSwapChainImageHandles]

/-- C1: the frame-slot counter is always in `[0, kMaxFramesInFlight)` on
every reachable state; every completed `DrawFrame` advances it by exactly
`(current + 1) mod kMaxFramesInFlight` (for every input, in particular
independent of the acquired image index); and after `N` calls with no
staleness events, starting from initialization, the counter equals
`N mod kMaxFramesInFlight`. -/
theorem C1_current_frame_invariant :
    (∀ s : RendererState, Reachable s →
      s.mCurrentRenderFrame < kMaxFramesInFlight) ∧
    (∀ (inp : FrameInputs) (s s' : RendererState),
      DrawFrame inp s = DrawOutcome.completed s' →
      s'.mCurrentRenderFrame =
        (s.mCurrentRenderFrame + 1) % kMaxFramesInFlight) ∧
    (∀ (env : SwapChainEnv) (fbW fbH : Nat) (hA hR : Nat → Nat)
      (inps : List FrameInputs),
      (∀ inp ∈ inps,
        inp.acquireResult = VkResult.VK_SUCCESS ∧ inp.submitOk = true) →
      ∃ s', runDrawFrames inps (initRenderer env fbW fbH hA hR) = some s' ∧
        s'.mCurrentRenderFrame = inps.length % kMaxFramesInFlight) := by
  refine ⟨?_, ?_, ?_⟩
  · intro s hs
    exact (reachable_ringInv hs).1
  · intro inp s s' h
    obtain ⟨-, -, -, rfl⟩ := DrawFrame_completed_spec h
    rfl
  · intro env fbW fbH hA hR inps hgood
    obtain ⟨hframe0, hdirty0, -⟩ := initRenderer_spec env fbW fbH hA hR
    obtain ⟨s', h1, h2⟩ := runDrawFrames_normal inps _
      (ringInv_init env fbW fbH hA hR) hdirty0 hgood
    refine ⟨s', h1, ?_⟩
    rw [h2, hframe0, Nat.zero_add]

/-- C1 witness: three successful frames from initialization leave the
counter at `3 mod 2 = 1`. -/
theorem C1_witness :
    runDrawFrames [sampleNormalInput, sampleNormalInput, sampleNormalInput]
      sampleInit = some sampleRunState ∧
    sampleRunState.mCurrentRenderFrame = 3 % kMaxFramesInFlight := by
  obtain ⟨s', h1, h2⟩ := C1_current_frame_invariant.2.2 sampleEnv 800 600
    sampleIAHandle sampleRFHandle
    [sampleNormalInput, sampleNormalInput, sampleNormalInput]
    (by
      intro inp h
      simp only [List.mem_cons, List.not_mem_nil, or_false] at h
      rcases h with rfl | rfl | rfl <;> exact ⟨rfl, rfl⟩)
  have hs : sampleRunState = s' := by
    unfold sampleRunState
    rw [show runDrawFrames [sampleNormalInput, sampleNormalInput,
      sampleNormalInput] sampleInit = some s' from h1]
    rfl
  constructor
  · rw [hs]
    exact h1
  · rw [hs]
    exact h2

/-- C2: a stale frame (acquire out-of-date/suboptimal or resize flag set)
aborts atomically: the dirty flag is cleared, the recreation runs exactly
once, no submission and no present are issued, the slot counter is
unchanged, the semaphore rings are untouched and the fence ring keeps its
size (recreation itself, first conjunct, touches none of the three ring
vectors); afterwards a frame with successful acquire and submit completes
normally. -/
theorem C2_stale_recreate :
    (∀ (env : SwapChainEnv) (t t' : RendererState),
      RecreateSwapChain env t = some t' →
      t'.mFencesInFlight = t.mFencesInFlight ∧
      t'.mSemaphoreImageAvailable = t.mSemaphoreImageAvailable ∧
      t'.mSemaphoreRenderFinished = t.mSemaphoreRenderFinished) ∧
    (∀ (s : RendererState) (inp : FrameInputs),
      RingInv s → StaleCond inp s →
      (pollFramebufferUntilNonZero inp.recreateEnv.fbPollSizes).isSome = true →
      ∃ s', DrawFrame inp s = DrawOutcome.aborted s' ∧
        s'.mIsWindowResizeDirty = false ∧
        s'.recreateCount = s.recreateCount + 1 ∧
        s'.submitCount = s.submitCount ∧
        s'.presentCount = s.presentCount ∧
        s'.mCurrentRenderFrame = s.mCurrentRenderFrame ∧
        s'.mSemaphoreImageAvailable = s.mSemaphoreImageAvailable ∧
        s'.mSemaphoreRenderFinished = s.mSemaphoreRenderFinished ∧
        s'.mFencesInFlight.length = s.mFencesInFlight.length ∧
        (∀ inp2 : FrameInputs,
          inp2.acquireResult = VkResult.VK_SUCCESS → inp2.submitOk = true →
          ∃ s'', DrawFrame inp2 s' = DrawOutcome.completed s'' ∧
            s''.submitCount = s'.submitCount + 1 ∧
            s''.presentCount = s'.presentCount + 1)) := by
  constructor
  · intro env t t' h
    have hspec := RecreateSwapChain_some_spec h
    exact ⟨hspec.1, hspec.2.1, hspec.2.2.1⟩
  · intro s inp hInv hstale hpoll
    have hfence := ringInv_fence_ok hInv
    obtain ⟨sz, hsz⟩ := Option.isSome_iff_exists.mp hpoll
    have heq := DrawFrame_eq_stale hfence hstale
    obtain ⟨t, ht⟩ : ∃ t, RecreateSwapChain inp.recreateEnv
        { s with
          mFencesInFlight :=
            s.mFencesInFlight.set s.mCurrentRenderFrame FenceState.signaled,
          mIsWindowResizeDirty := false } = some t := by
      unfold RecreateSwapChain
      rw [hsz]
      exact ⟨_, rfl⟩
    rw [ht] at heq
    obtain ⟨hst, hdirty, hframe, hrc, hsc, hpc, hsa, hsr, hfen⟩ :=
      DrawFrame_aborted_spec heq
    refine ⟨t, heq, hdirty, hrc, hsc, hpc, hframe, hsa, hsr, ?_, ?_⟩
    · rw [hfen]
      simp
    · intro inp2 hacq2 hsub2
      have hInv' : RingInv t := ringInv_aborted hInv heq
      have hstale2 : ¬ StaleCond inp2 t := by
        unfold StaleCond
        simp [hacq2, hdirty]
      exact ⟨_, DrawFrame_eq_completed (ringInv_fence_ok hInv') hstale2
        hacq2 hsub2, rfl, rfl⟩

/-- C2 witness: an out-of-date acquisition on the freshly initialized
renderer aborts the frame, recreates once, issues no submit and no
present, keeps the slot counter and semaphore rings, and the next normal
frame completes. -/
theorem C2_witness :
    DrawFrame sampleStaleInput sampleInit =
      DrawOutcome.aborted samplePostStale ∧
    samplePostStale.mIsWindowResizeDirty = false ∧
    samplePostStale.recreateCount = sampleInit.recreateCount + 1 ∧
    samplePostStale.submitCount = sampleInit.submitCount ∧
    samplePostStale.presentCount = sampleInit.presentCount ∧
    samplePostStale.mCurrentRenderFrame = sampleInit.mCurrentRenderFrame ∧
    samplePostStale.mSemaphoreImageAvailable =
      sampleInit.mSemaphoreImageAvailable ∧
    samplePostStale.mSemaphoreRenderFinished =
      sampleInit.mSemaphoreRenderFinished ∧
    samplePostStale.mFencesInFlight.length =
      sampleInit.mFencesInFlight.length ∧
    (DrawFrame sampleNormalInput samplePostStale).isCompleted = true := by
  obtain ⟨s', h1, h2, h3, h4, h5, h6, h7, h8, h9, h10⟩ :=
    C2_stale_recreate.2 sampleInit sampleStaleInput
      (ringInv_init sampleEnv 800 600 sampleIAHandle sampleRFHandle)
      (Or.inl rfl) rfl
  have hs : samplePostStale = s' := by
    unfold samplePostStale
    rw [show DrawFrame sampleStaleInput sampleInit =
      DrawOutcome.aborted s' from h1]
  obtain ⟨s'', h11, -, -⟩ := h10 sampleNormalInput rfl rfl
  subst hs
  refine ⟨h1, h2, h3, h4, h5, h6, h7, h8, h9, ?_⟩
  rw [h11]
  rfl

/-- C4: while every polled framebuffer size has a zero dimension, the
recreation never leaves its poll loop — in particular it never attempts
chain creation at all, so no chain with a zero dimension is created — and
when the poll loop does exit, it exits at the first reading whose two
dimensions are both non-zero. -/
theorem C4_zero_size_recreate_blocks :
    (∀ sizes : List (Nat × Nat), (∀ p ∈ sizes, p.1 = 0 ∨ p.2 = 0) →
      pollFramebufferUntilNonZero sizes = none) ∧
    (∀ (env : SwapChainEnv) (s : RendererState),
      (∀ p ∈ env.fbPollSizes, p.1 = 0 ∨ p.2 = 0) →
      RecreateSwapChain env s = none) ∧
    (∀ (sizes : List (Nat × Nat)) (sz : Nat × Nat),
      pollFramebufferUntilNonZero sizes = some sz →
      sz.1 ≠ 0 ∧ sz.2 ≠ 0 ∧
      ∃ l₁ l₂, sizes = l₁ ++ sz :: l₂ ∧ ∀ p ∈ l₁, p.1 = 0 ∨ p.2 = 0) := by
  have hnone : ∀ sizes : List (Nat × Nat), (∀ p ∈ sizes, p.1 = 0 ∨ p.2 = 0) →
      pollFramebufferUntilNonZero sizes = none := by
    intro sizes h
    induction sizes with
    | nil => rfl
    | cons sz rest ih =>
      unfold pollFramebufferUntilNonZero
      rw [if_pos (h sz (List.mem_cons_self sz rest))]
      exact ih fun p hp => h p (List.mem_cons_of_mem sz hp)
  refine ⟨hnone, ?_, ?_⟩
  · intro env s h
    unfold RecreateSwapChain
    rw [hnone env.fbPollSizes h]
  · intro sizes sz h
    induction sizes with
    | nil => exact absurd h (by simp [pollFramebufferUntilNonZero])
    | cons hd rest ih =>
      unfold pollFramebufferUntilNonZero at h
      by_cases hz : hd.1 = 0 ∨ hd.2 = 0
      · rw [if_pos hz] at h
        obtain ⟨h1, h2, l₁, l₂, hsplit, hzero⟩ := ih h
        refine ⟨h1, h2, hd :: l₁, l₂, by rw [hsplit]; rfl, ?_⟩
        intro p hp
        rcases List.mem_cons.mp hp with rfl | hp'
        · exact hz
        · exact hzero p hp'
      · rw [if_neg hz] at h
        injection h with h
        subst h
        push_neg at hz
        exact ⟨hz.1, hz.2, [], rest, rfl, by simp⟩

/-- C4 witness: a recreation whose window stays zero-sized on every poll
reading stays blocked and creates nothing. -/
theorem C4_witness : RecreateSwapChain sampleZeroEnv sampleInit = none :=
  C4_zero_size_recreate_blocks.2.1 sampleZeroEnv sampleInit (by decide)

/-- C5: `DrawFrame` failure semantics are asymmetric — an acquisition
result other than success/out-of-date/suboptimal (dirty flag clear) throws
the acquire error; a rejected submission throws the submit error; the
present call's result is never consulted (two inputs differing only in it
yield identical outcomes), so with successful acquire and submit the frame
completes regardless of the present result. -/
theorem C5_failure_asymmetry :
    (∀ (s : RendererState) (inp : FrameInputs) (code : Nat),
      s.mFencesInFlight.getD s.mCurrentRenderFrame FenceState.unsignaled ≠
        FenceState.unsignaled →
      s.mIsWindowResizeDirty = false →
      inp.acquireResult = VkResult.otherError code →
      ∃ t, DrawFrame inp s =
        DrawOutcome.fatalError RenderError.acquireFailed t) ∧
    (∀ (s : RendererState) (inp : FrameInputs),
      s.mFencesInFlight.getD s.mCurrentRenderFrame FenceState.unsignaled ≠
        FenceState.unsignaled →
      s.mIsWindowResizeDirty = false →
      inp.acquireResult = VkResult.VK_SUCCESS →
      inp.submitOk = false →
      ∃ t, DrawFrame inp s =
        DrawOutcome.fatalError RenderError.submitFailed t) ∧
    (∀ (s : RendererState) (a : VkResult) (i : Nat) (sub : Bool)
      (r₁ r₂ : VkResult) (env : SwapChainEnv),
      DrawFrame ⟨a, i, sub, r₁, env⟩ s = DrawFrame ⟨a, i, sub, r₂, env⟩ s) ∧
    (∀ (s : RendererState) (inp : FrameInputs),
      s.mFencesInFlight.getD s.mCurrentRenderFrame FenceState.unsignaled ≠
        FenceState.unsignaled →
      s.mIsWindowResizeDirty = false →
      inp.acquireResult = VkResult.VK_SUCCESS →
      inp.submitOk = true →
      ∃ t, DrawFrame inp s = DrawOutcome.completed t) := by
  refine ⟨?_, ?_, ?_, ?_⟩
  · intro s inp code hfence hdirty hacq
    have hstale : ¬ StaleCond inp s := by
      unfold StaleCond
      simp [hacq, hdirty]
    exact ⟨_, DrawFrame_eq_fatal_acquire hfence hstale (by simp [hacq])⟩
  · intro s inp hfence hdirty hacq hsub
    have hstale : ¬ StaleCond inp s := by
      unfold StaleCond
      simp [hacq, hdirty]
    exact ⟨_, DrawFrame_eq_fatal_submit hfence hstale hacq hsub⟩
  · intro s a i sub r₁ r₂ env
    rfl
  · intro s inp hfence hdirty hacq hsub
    have hstale : ¬ StaleCond inp s := by
      unfold StaleCond
      simp [hacq, hdirty]
    exact ⟨_, DrawFrame_eq_completed hfence hstale hacq hsub⟩

/-- C5 witness: on the freshly initialized renderer, an unknown acquire
code throws the acquire error; a rejected submission throws the submit
error; a failing present result changes nothing and the frame still
completes. -/
theorem C5_witness :
    (DrawFrame sampleAcquireFailInput sampleInit).isFatalAcquire = true ∧
    (DrawFrame sampleSubmitFailInput sampleInit).isFatalSubmit = true ∧
    DrawFrame samplePresentFailInput sampleInit =
      DrawFrame sampleNormalInput sampleInit ∧
    (DrawFrame samplePresentFailInput sampleInit).isCompleted = true := by
  obtain ⟨t1, h1⟩ := C5_failure_asymmetry.1 sampleInit sampleAcquireFailInput
    3 (by decide) rfl rfl
  obtain ⟨t2, h2⟩ := C5_failure_asymmetry.2.1 sampleInit sampleSubmitFailInput
    (by decide) rfl rfl rfl
  have h3 := C5_failure_asymmetry.2.2.1 sampleInit VkResult.VK_SUCCESS 0 true
    (VkResult.otherError 9) VkResult.VK_SUCCESS sampleEnv
  obtain ⟨t4, h4⟩ := C5_failure_asymmetry.2.2.2 sampleInit
    samplePresentFailInput (by decide) rfl rfl rfl
  refine ⟨?_, ?_, h3, ?_⟩
  · rw [h1]
    rfl
  · rw [h2]
    rfl
  · rw [h4]
    rfl

/-- C9: after a completed swapchain recreation, and likewise right after
initialization, the image-view, framebuffer and command-buffer sequences
all have the same length as the image sequence, and entry `i` of the view
and framebuffer sequences wraps exactly image `i`. -/
theorem C9_resource_counts_aligned :
    (∀ (env : SwapChainEnv) (s s' : RendererState),
      RecreateSwapChain env s = some s' →
      s'.mSwapChainImageViews.length = s'.mSwapChainImages.length ∧
      s'.mSwapChainFrameBuffers.length = s'.mSwapChainImages.length ∧
      s'.mCommandBuffers.length = s'.mSwapChainImages.length ∧
      (∀ i : Nat,
        s'.mSwapChainImageViews[i]? =
          s'.mSwapChainImages[i]?.map env.imageViewOf ∧
        s'.mSwapChainFrameBuffers[i]? =
          s'.mSwapChainImages[i]?.map
            (fun im => env.framebufferOf (env.imageViewOf im)))) ∧
    (∀ (env : SwapChainEnv) (fbW fbH : Nat) (hA hR : Nat → Nat),
      (initRenderer env fbW fbH hA hR).mSwapChainImageViews.length =
        (initRenderer env fbW fbH hA hR).mSwapChainImages.length ∧
      (initRenderer env fbW fbH hA hR).mSwapChainFrameBuffers.length =
        (initRenderer env fbW fbH hA hR).mSwapChainImages.length ∧
      (initRenderer env fbW fbH hA hR).mCommandBuffers.length =
        (initRenderer env fbW fbH hA hR).mSwapChainImages.length ∧
      (∀ i : Nat,
        (initRenderer env fbW fbH hA hR).mSwapChainImageViews[i]? =
          (initRenderer env fbW fbH hA hR).mSwapChainImages[i]?.map
            env.imageViewOf ∧
        (initRenderer env fbW fbH hA hR).mSwapChainFrameBuffers[i]? =
          (initRenderer env fbW fbH hA hR).mSwapChainImages[i]?.map
            (fun im => env.framebufferOf (env.imageViewOf im)))) := by
  have main : ∀ (env : SwapChainEnv) (t : RendererState),
      t.mSwapChainImages = env.newImages →
      t.mSwapChainImageViews = env.newImages.map env.imageViewOf →
      t.mSwapChainFrameBuffers =
        (env.newImages.map env.imageViewOf).map env.framebufferOf →
      t.mCommandBuffers =
        (List.range env.newImages.length).map env.commandBufferAt →
      t.mSwapChainImageViews.length = t.mSwapChainImages.length ∧
      t.mSwapChainFrameBuffers.length = t.mSwapChainImages.length ∧
      t.mCommandBuffers.length = t.mSwapChainImages.length ∧
      (∀ i : Nat,
        t.mSwapChainImageViews[i]? =
          t.mSwapChainImages[i]?.map env.imageViewOf ∧
        t.mSwapChainFrameBuffers[i]? =
          t.mSwapChainImages[i]?.map
            (fun im => env.framebufferOf (env.imageViewOf im))) := by
    intro env t himg hviews hfbs hcbs
    refine ⟨?_, ?_, ?_, ?_⟩
    · rw [hviews, himg]
      simp
    · rw [hfbs, himg]
      simp
    · rw [hcbs, himg]
      simp
    · intro i
      constructor
      · rw [hviews, himg, List.getElem?_map]
      · rw [hfbs, himg, List.getElem?_map, List.getElem?_map, Option.map_map]
        rfl
  constructor
  · intro env s s' h
    obtain ⟨-, -, -, -, -, -, -, -, himg, hviews, hfbs, hcbs⟩ :=
      RecreateSwapChain_some_spec h
    exact main env s' himg hviews hfbs hcbs
  · intro env fbW fbH hA hR
    obtain ⟨-, -, himg, hviews, hfbs, hcbs⟩ := initRenderer_spec env fbW fbH hA hR
    exact main env _ himg hviews hfbs hcbs

/-- C9 witness: the freshly initialized sample renderer has aligned
resource sequences, and entry 1 of the view sequence wraps image 1. -/
theorem C9_witness :
    sampleInit.mSwapChainImageViews.length =
      sampleInit.mSwapChainImages.length ∧
    sampleInit.mSwapChainFrameBuffers.length =
      sampleInit.mSwapChainImages.length ∧
    sampleInit.mCommandBuffers.length =
      sampleInit.mSwapChainImages.length ∧
    sampleInit.mSwapChainImageViews[1]? =
      sampleInit.mSwapChainImages[1]?.map sampleEnv.imageViewOf :=
  ⟨(C9_resource_counts_aligned.2 sampleEnv 800 600 sampleIAHandle
      sampleRFHandle).1,
   (C9_resource_counts_aligned.2 sampleEnv 800 600 sampleIAHandle
      sampleRFHandle).2.1,
   (C9_resource_counts_aligned.2 sampleEnv 800 600 sampleIAHandle
      sampleRFHandle).2.2.1,
   ((C9_resource_counts_aligned.2 sampleEnv 800 600 sampleIAHandle
      sampleRFHandle).2.2.2 1).1⟩

/-- C10: on every reachable state, no in-flight fence is unsignaled
without a pending submission that will signal it — each fence is created
signaled, is reset only on the path that immediately submits work
signaling it, and an aborted frame returns before the reset — so the
Wait-For-Slot step of `DrawFrame` never blocks forever. -/
theorem C10_fence_wait_never_blocks :
    (∀ s : RendererState, Reachable s →
      ∀ f ∈ s.mFencesInFlight, f ≠ FenceState.unsignaled) ∧
    (∀ (s : RendererState) (inp : FrameInputs), Reachable s →
      DrawFrame inp s ≠ DrawOutcome.blockedOnFence) := by
  constructor
  · intro s hs
    exact (reachable_ringInv hs).2.2
  · intro s inp hs hblk
    have hfence := ringInv_fence_ok (reachable_ringInv hs)
    by_cases hstale : StaleCond inp s
    · rw [DrawFrame_eq_stale hfence hstale] at hblk
      rcases hrec : RecreateSwapChain inp.recreateEnv
          { s with
            mFencesInFlight :=
              s.mFencesInFlight.set s.mCurrentRenderFrame FenceState.signaled,
            mIsWindowResizeDirty := false } with _ | s2 <;>
        rw [hrec] at hblk <;> simp at hblk
    · by_cases hacq : inp.acquireResult = VkResult.VK_SUCCESS
      · by_cases hsub : inp.submitOk = true
        · rw [DrawFrame_eq_completed hfence hstale hacq hsub] at hblk
          simp at hblk
        · rw [DrawFrame_eq_fatal_submit hfence hstale hacq
            (by simpa using hsub)] at hblk
          simp at hblk
      · rw [DrawFrame_eq_fatal_acquire hfence hstale hacq] at hblk
        simp at hblk

/-- C10 witness: the freshly initialized renderer never blocks at
Wait-For-Slot on the witness frame. -/
theorem C10_witness :
    DrawFrame sampleNormalInput sampleInit ≠ DrawOutcome.blockedOnFence :=
  C10_fence_wait_never_blocks.2 sampleInit sampleNormalInput
    (Reachable.init sampleEnv 800 600 sampleIAHandle sampleRFHandle)

end SHVulkan
